import Mathlib

/-!
Verification of the python-healthvault client library.

This file gives a shallow embedding in Lean 4 of the parts of the library
that the specification claims talk about:

* `healthvaultlib/status_codes.py` and `healthvaultlib/exceptions.py` —
  the status-code constants and the status-to-exception classifier;
* `healthvaultlib/healthvault.py` — `format_datetime`, the request header
  builder `_build_and_send_request` (its identifier checks and the
  `<info-hash>` computation), and the `connect` / `_get_record_id`
  record-resolution step of `HealthVaultConn`;
* `healthvaultlib/xmlutils.py` — the XML lookup helpers, the `when`
  timestamp decoders, the per-type record parsers and `parse_group`;
* `healthvaultlib/hvcrypto.py` — `pad_rsa`.

Python exceptions are modelled with `Except PyError`; Python `None` is
modelled with `Option`; byte strings are `List Nat` with each byte `< 256`.
-/

/-- The kinds of exception the library can signal.  Each constructor stands
for one Python exception class that the embedded code can raise. -/
inductive PyError where
  | valueError (msg : String)
  | typeError (msg : String)
  | attributeError (msg : String)
  | healthVaultException (msg : String) (code : Option Int)
  deriving Repr, DecidableEq

/-- Decidable equality for `Except`, so that concrete runs of the embedded
fallible code can be settled by `decide`. -/
instance {ε α : Type} [DecidableEq ε] [DecidableEq α] : DecidableEq (Except ε α) := fun a b =>
  match a, b with
  | .ok x, .ok y =>
    match decEq x y with
    | isTrue h => isTrue (h ▸ rfl)
    | isFalse h => isFalse (fun hh => h (Except.ok.inj hh))
  | .error e, .error f =>
    match decEq e f with
    | isTrue h => isTrue (h ▸ rfl)
    | isFalse h => isFalse (fun hh => h (Except.error.inj hh))
  | .ok _, .error _ => isFalse Except.noConfusion
  | .error _, .ok _ => isFalse Except.noConfusion

namespace StatusCodes

/-! Constants from `healthvaultlib/status_codes.py` (class `HealthVaultStatus`);
only the ones the claims mention are needed by name. -/

def OK : Int := 0
def CREDENTIAL_TOKEN_EXPIRED : Int := 7
def ACCESS_DENIED : Int := 11
def AUTHENTICATED_SESSION_TOKEN_EXPIRED : Int := 65

end StatusCodes

/-- The exception classes that `_get_exception_class_for` can return
(`healthvaultlib/exceptions.py`). -/
inductive ExcClass where
  | healthVaultException
  | healthVaultTokenExpiredException
  | healthVaultAccessDeniedException
  | healthVaultHTTPException
  deriving Repr, DecidableEq

/-- Embedding of `_get_exception_class_for` from
`healthvaultlib/exceptions.py` lines 3-19: the classifier compares the code
with `HealthVaultStatus.CREDENTIAL_TOKEN_EXPIRED` and
`HealthVaultStatus.ACCESS_DENIED` and otherwise falls through to the
generic class. -/
def _get_exception_class_for (code : Int) : ExcClass :=
  if code = StatusCodes.CREDENTIAL_TOKEN_EXPIRED then
    ExcClass.healthVaultTokenExpiredException
  else if code = StatusCodes.ACCESS_DENIED then
    ExcClass.healthVaultAccessDeniedException
  else
    ExcClass.healthVaultException

/-! ## Datetime values

Python `datetime.datetime` (as used by the library) carries six validated
fields.  `datetime.datetime(y, mo, d, h, mi, s)` raises `ValueError` when a
field is out of range; the embedding checks the same ranges the CPython
constructor checks. -/

/-- A validated Python `datetime.datetime` value (microsecond not used by
the decoders of this library). -/
structure PyDatetime where
  year : Int
  month : Int
  day : Int
  hour : Int
  minute : Int
  second : Int
  deriving Repr, DecidableEq

/-- A validated Python `datetime.date` value. -/
structure PyDate where
  year : Int
  month : Int
  day : Int
  deriving Repr, DecidableEq

/-- A validated Python `datetime.time` value. -/
structure PyTime where
  hour : Int
  minute : Int
  second : Int
  microsecond : Int
  deriving Repr, DecidableEq

/-- Leap-year rule used by the Python `datetime` module. -/
def isLeapYear (y : Int) : Bool :=
  y % 4 = 0 && (y % 100 ≠ 0 || y % 400 = 0)

/-- Number of days in a month, as the Python `datetime` module computes it. -/
def daysInMonth (y m : Int) : Int :=
  if m = 2 then (if isLeapYear y then 29 else 28)
  else if m = 4 || m = 6 || m = 9 || m = 11 then 30
  else 31

/-- Range check performed by `datetime.date(y, m, d)`:
`MINYEAR = 1 ≤ y ≤ MAXYEAR = 9999`, `1 ≤ m ≤ 12`, `1 ≤ d ≤ days in month`. -/
def validDate (y m d : Int) : Bool :=
  1 ≤ y && y ≤ 9999 && 1 ≤ m && m ≤ 12 && 1 ≤ d && d ≤ daysInMonth y m

/-- Range check performed by `datetime.time`: `0 ≤ h < 24`, `0 ≤ mi < 60`,
`0 ≤ s < 60`, `0 ≤ us < 1000000`. -/
def validTime (h mi s us : Int) : Bool :=
  0 ≤ h && h < 24 && 0 ≤ mi && mi < 60 && 0 ≤ s && s < 60 &&
    0 ≤ us && us < 1000000

/-- Embedding of the constructor call `datetime.datetime(y, mo, d, h, mi, s)`:
returns the value, or raises `ValueError` on an out-of-range field. -/
def mkPyDatetime (y mo d h mi s : Int) : Except PyError PyDatetime :=
  if validDate y mo d && validTime h mi s 0 then
    .ok ⟨y, mo, d, h, mi, s⟩
  else
    .error (.valueError "field out of range for datetime.datetime")

/-- Embedding of `datetime.date(y, m, d)`. -/
def mkPyDate (y m d : Int) : Except PyError PyDate :=
  if validDate y m d then
    .ok ⟨y, m, d⟩
  else
    .error (.valueError "field out of range for datetime.date")

/-- Embedding of `datetime.time(h, m, s, microsecond=us)`. -/
def mkPyTime (h mi s us : Int) : Except PyError PyTime :=
  if validTime h mi s us then
    .ok ⟨h, mi, s, us⟩
  else
    .error (.valueError "field out of range for datetime.time")

/-! ## `format_datetime` (`healthvaultlib/healthvault.py` lines 47-55)

The source formats with `dt.strftime("%Y-%m-%dT%H:%m:%S")`.  Each strftime
directive is rendered zero-padded; note that the format string uses `%m`
(the MONTH directive) in the minutes position as well as in the month
position, and never uses `%M` (minutes). -/

/-- Zero-pad the decimal rendering of a nonnegative integer to `w` digits,
as strftime does for its numeric directives. -/
def zeroPad (w : Nat) (n : Int) : String :=
  let s := toString n.toNat
  String.mk (List.replicate (w - s.length) '0') ++ s

/-- Embedding of `format_datetime`: renders
`dt.strftime("%Y-%m-%dT%H:%m:%S")` directive by directive.
`%Y` = year (4 digits), `%m` = month (2 digits), `%d` = day,
`%H` = hour, `%S` = second; the fifth numeric field of the output is the
MONTH again because the format string says `%m`, not `%M`. -/
def format_datetime (dt : PyDatetime) : String :=
  zeroPad 4 dt.year ++ "-" ++ zeroPad 2 dt.month ++ "-" ++ zeroPad 2 dt.day ++
    "T" ++ zeroPad 2 dt.hour ++ ":" ++ zeroPad 2 dt.month ++ ":" ++
    zeroPad 2 dt.second

/-- Modelled from the spec: the timestamp format `CCYY-MM-DDThh:mm:ss` that
the docstring of `format_datetime` promises — year, month, day, `T`, hour,
MINUTE, second, each zero-padded.  Used only to compare the source
behaviour against the documented behaviour. -/
def spec_datetime_format (dt : PyDatetime) : String :=
  zeroPad 4 dt.year ++ "-" ++ zeroPad 2 dt.month ++ "-" ++ zeroPad 2 dt.day ++
    "T" ++ zeroPad 2 dt.hour ++ ":" ++ zeroPad 2 dt.minute ++ ":" ++
    zeroPad 2 dt.second

/-! ## XML element model

An `ElementTree` element: a tag, attributes, the text node (the Python `elt.text`, which is `None` when the element has no text) and the list of
child elements.  Paths (`find`/`findall`) are lists of segments; a segment
matches children by tag and, optionally, by one attribute value (the
attribute-filtered `display` form, units equal to lb, used by `parse_weight`). -/

structure PathSeg where
  tag : String
  attr : Option (String × String) := none
  deriving Repr

inductive XElt where
  | mk (tag : String) (attrs : List (String × String))
       (text : Option String) (children : List XElt)
  deriving Repr

/-- The tag of an element. -/
def XElt.tag : XElt → String
  | .mk t _ _ _ => t

/-- The attribute list of an element. -/
def XElt.attrs : XElt → List (String × String)
  | .mk _ a _ _ => a

/-- The text node of an element (`elt.text`). -/
def XElt.text : XElt → Option String
  | .mk _ _ t _ => t

/-- The child elements of an element. -/
def XElt.children : XElt → List XElt
  | .mk _ _ _ c => c

/-- Embedding of `elt.get(name)`: the value of an attribute, or `None`. -/
def XElt.get (e : XElt) (name : String) : Option String :=
  (e.attrs.find? (fun p => p.1 == name)).map (·.2)

/-- Whether a child element matches one path segment. -/
def segMatches (s : PathSeg) (e : XElt) : Bool :=
  e.tag == s.tag &&
    (match s.attr with
     | none => true
     | some (a, v) => e.get a == some v)

/-- Embedding of `elt.findall(path)` for the simple paths this library
uses: at each path segment, keep every matching child of every element
found so far, in document order. -/
def XElt.findall (e : XElt) (path : List PathSeg) : List XElt :=
  path.foldl (fun acc seg => acc.flatMap (fun c => c.children.filter (segMatches seg))) [e]

/-- Embedding of `elt.find(path)`: the first element matching the path, or
`None`. -/
def XElt.find (e : XElt) (path : List PathSeg) : Option XElt :=
  (e.findall path).head?

/-- A path of plain tag segments (no attribute filter). -/
def tags (l : List String) : List PathSeg := l.map (fun t => { tag := t })

/-! ## Python value coercions (`int(...)`, `float(...)`, truthiness) -/

/-- The whitespace characters Python strips in `str.strip()` and around
numeric literals. -/
def isPySpace (c : Char) : Bool :=
  c = ' ' || c = '\t' || c = '\n' || c = '\x0d' || c = '\x0b' || c = '\x0c'

/-- Strip leading and trailing Python whitespace from a character list. -/
def pyStripList (cs : List Char) : List Char :=
  ((cs.dropWhile isPySpace).reverse.dropWhile isPySpace).reverse

/-- Embedding of `s.strip()` on strings. -/
def pyStrip (s : String) : String :=
  String.mk (pyStripList s.data)

/-- Value of a list of decimal digit characters. -/
def digitsToNat (ds : List Char) : Nat :=
  ds.foldl (fun a c => a * 10 + (c.toNat - 48)) 0

/-- Embedding of Python `int(s)` on a string: strip whitespace, optional
sign, then a nonempty run of decimal digits; anything else raises
`ValueError`. -/
def parseIntCore (cs : List Char) : Option Int :=
  let t := pyStripList cs
  let signAndDigits : Int × List Char :=
    match t with
    | '-' :: r => (-1, r)
    | '+' :: r => (1, r)
    | r => (1, r)
  let sgn := signAndDigits.1
  let ds := signAndDigits.2
  if ds ≠ [] && ds.all (·.isDigit) then some (sgn * (digitsToNat ds : Int))
  else none

/-- Embedding of `int(x)` where `x` is `elt.text`: a missing text node is
Python `None` and raises `TypeError`; a malformed literal raises
`ValueError`. -/
def pyInt (t : Option String) : Except PyError Int :=
  match t with
  | none => .error (.typeError "int() argument must be a string or a number, not NoneType")
  | some s =>
    match parseIntCore s.data with
    | some v => .ok v
    | none => .error (.valueError "invalid literal for int()")

/-- The exact value of a parsed Python float literal: `mantissa / 10 ^
scale`, kept unnormalised (the protocol carries finite decimal literals,
which `float(...)` parses; the pair is the exact decimal read). -/
structure PyFloat where
  mantissa : Int
  scale : Nat
  deriving Repr, DecidableEq

/-- Embedding of Python `float(s)` for the decimal literals this protocol
carries (optional sign, digits, optional fraction; exponent forms do not
occur in the data and are modelled as parse failures).  The value is
kept exact as a scaled decimal. -/
def parseFloatCore (cs : List Char) : Option PyFloat :=
  let t := pyStripList cs
  let signAndBody : Int × List Char :=
    match t with
    | '-' :: r => (-1, r)
    | '+' :: r => (1, r)
    | r => (1, r)
  let sgn := signAndBody.1
  let body := signAndBody.2
  let ip := body.takeWhile (·.isDigit)
  let rest := body.drop ip.length
  match rest with
  | [] =>
    if ip ≠ [] then some ⟨sgn * (digitsToNat ip : Int), 0⟩ else none
  | '.' :: fp =>
    if fp.all (·.isDigit) && (ip ≠ [] || fp ≠ []) then
      some ⟨sgn * ((digitsToNat ip : Int) * (10 : Int) ^ fp.length + (digitsToNat fp : Int)),
            fp.length⟩
    else none
  | _ => none

/-- Embedding of `float(x)` where `x` is `elt.text`. -/
def pyFloat (t : Option String) : Except PyError PyFloat :=
  match t with
  | none => .error (.typeError "float() argument must be a string or a number, not NoneType")
  | some s =>
    match parseFloatCore s.data with
    | some v => .ok v
    | none => .error (.valueError "could not convert string to float")

/-- Embedding of the Python idiom `x or 0` for an optional integer:
`None` (and the falsy value `0`) give `0`. -/
def pyOr0 (x : Option Int) : Int :=
  match x with
  | none => 0
  | some v => if v = 0 then 0 else v

/-- Embedding of passing a possibly-`None` element to a function that
immediately dereferences it (`when_to_datetime(elt.find(...))` and
friends): Python raises `AttributeError` on `None`. -/
def pyCall {α : Type} (o : Option XElt) (f : XElt → Except PyError α) : Except PyError α :=
  match o with
  | none => .error (.attributeError "NoneType object has no attribute")
  | some e => f e

/-! ## Lookup helpers from `healthvaultlib/xmlutils.py` lines 39-78 -/

/-- Embedding of `text_list`: the text values of every element matching the
path (each may be `None`). -/
def text_list (e : XElt) (path : List PathSeg) : List (Option String) :=
  (e.findall path).map XElt.text

/-- Embedding of `text_or_none`: the text of the first matching element, or
`None` when the element is absent (or has no text). -/
def text_or_none (e : XElt) (path : List PathSeg) : Option String :=
  (e.find path).bind XElt.text

/-- Embedding of `int_or_none`: `None` when the element is absent,
otherwise `int(elt.text)` (which can raise). -/
def int_or_none (e : XElt) (path : List PathSeg) : Except PyError (Option Int) :=
  match e.find path with
  | none => .ok none
  | some elt => (pyInt elt.text).map some

/-- Embedding of `float_or_none`. -/
def float_or_none (e : XElt) (path : List PathSeg) : Except PyError (Option PyFloat) :=
  match e.find path with
  | none => .ok none
  | some elt => (pyFloat elt.text).map some

/-- ASCII lowercasing of one character, as `str.lower()` does on the
ASCII text this protocol carries. -/
def pyLowerChar (c : Char) : Char :=
  if 65 ≤ c.toNat && c.toNat ≤ 90 then Char.ofNat (c.toNat + 32) else c

/-- Embedding of `s.lower()`. -/
def pyLower (s : String) : String :=
  String.mk (s.data.map pyLowerChar)

/-- Embedding of `boolean_or_none`: `None` when the text is absent or empty
(falsy), otherwise whether the lowercased text equals `"true"`. -/
def boolean_or_none (e : XElt) (path : List PathSeg) : Option Bool :=
  match text_or_none e path with
  | none => none
  | some t => if t ≠ "" then some (pyLower t == "true") else none

/-- Embedding of `parse_optional_item`: apply the parser when the element
is present, `None` otherwise. -/
def parse_optional_item {α : Type} (e : XElt) (path : List PathSeg)
    (parser : XElt → Except PyError α) : Except PyError (Option α) :=
  match e.find path with
  | none => .ok none
  | some it => (parser it).map some

/-! ## The composite `when` decoders (`xmlutils.py` lines 82-122) -/

/-- The per-field step of `when_to_datetime` and `parse_approximate_date`:
the element text when present, the literal `"0"` when absent. -/
def whenText (e : XElt) (path : List PathSeg) : Option String :=
  match e.find path with
  | none => some "0"
  | some elt => elt.text

/-- Embedding of `when_to_datetime`: read `date/y`, `date/m`, `date/d`,
`time/h`, `time/m`, `time/s`, substituting `"0"` for a missing element,
convert each with `int(...)`, and build `datetime.datetime(*ints)`. -/
def when_to_datetime (w : XElt) : Except PyError PyDatetime := do
  let paths := [["date", "y"], ["date", "m"], ["date", "d"],
                ["time", "h"], ["time", "m"], ["time", "s"]]
  let texts := paths.map (fun p => whenText w (tags p))
  let ints ← texts.mapM pyInt
  match ints with
  | [y, mo, d, h, mi, s] => mkPyDatetime y mo d h mi s
  | _ => .error (.typeError "unexpected arity")

/-- Embedding of `parse_approximate_date`: the same zero-default rule over
`y`, `m`, `d`, then `datetime.date(*ints)`. -/
def parse_approximate_date (e : XElt) : Except PyError PyDate := do
  let paths := [["y"], ["m"], ["d"]]
  let texts := paths.map (fun p => whenText e (tags p))
  let ints ← texts.mapM pyInt
  match ints with
  | [y, m, d] => mkPyDate y m d
  | _ => .error (.typeError "unexpected arity")

/-- Embedding of `parse_time` (`xmlutils.py` lines 304-315): `h` and `m`
are dereferenced unconditionally (Python raises `TypeError` on `None`),
`s` and `f` default to `0` via `or 0`. -/
def parse_time (e : XElt) : Except PyError PyTime := do
  let h ← int_or_none e (tags ["h"])
  let m ← int_or_none e (tags ["m"])
  let s ← int_or_none e (tags ["s"])
  let f ← int_or_none e (tags ["f"])
  match h, m with
  | some hv, some mv => mkPyTime hv mv (pyOr0 s) (1000 * pyOr0 f)
  | _, _ => .error (.typeError "an integer is required (got NoneType)")

/-- Embedding of `elt.find(path)` at a call site that dereferences the
result unconditionally: `AttributeError` when the element is absent. -/
def findOrAttrError (e : XElt) (path : List PathSeg) : Except PyError XElt :=
  match e.find path with
  | none => .error (.attributeError "NoneType object has no attribute")
  | some x => .ok x

/-! ## Record shapes and per-type parsers (`xmlutils.py`) -/

structure CodedValue where
  value : Option String
  family : List (Option String)
  type : Option String
  version : List (Option String)
  deriving Repr, DecidableEq

structure CodableValue where
  text : Option String
  code : List CodedValue
  deriving Repr, DecidableEq

structure DisplayValue where
  text : Option String
  units : Option String
  units_code : Option String
  display : Option String
  deriving Repr, DecidableEq

/-- Embedding of `parse_coded_value` (lines 166-176). -/
def parse_coded_value (e : XElt) : CodedValue :=
  { value := text_or_none e (tags ["value"])
    family := text_list e (tags ["family"])
    type := text_or_none e (tags ["type"])
    version := text_list e (tags ["version"]) }

/-- Embedding of `parse_codable_value` (lines 155-163). -/
def parse_codable_value (e : XElt) : CodableValue :=
  { text := text_or_none e (tags ["text"])
    code := (e.findall (tags ["code"])).map parse_coded_value }

/-- Embedding of `parse_display_value` (lines 374-389). -/
def parse_display_value (e : XElt) : DisplayValue :=
  { text := e.get "text"
    units := e.get "units"
    units_code := e.get "units-code"
    display := e.text }

/-- Embedding of `parse_positive_double` (lines 366-371): `float(elt.text)`. -/
def parse_positive_double (e : XElt) : Except PyError PyFloat :=
  pyFloat e.text

structure LengthValue where
  m : PyFloat
  display : Option DisplayValue
  deriving Repr, DecidableEq

/-- Embedding of `parse_length_value` (lines 355-363). -/
def parse_length_value (e : XElt) : Except PyError LengthValue := do
  let mv ← pyCall (e.find (tags ["m"])) parse_positive_double
  let disp ← parse_optional_item e (tags ["display"]) (fun d => .ok (parse_display_value d))
  return { m := mv, display := disp }

structure Address where
  description : Option String
  is_primary : Option Bool
  street : List (Option String)
  city : Option String
  state : Option String
  postcode : Option String
  country : Option String
  deriving Repr, DecidableEq

structure Phone where
  description : Option String
  is_primary : Option Bool
  number : List (Option String)
  deriving Repr, DecidableEq

structure Email where
  description : Option String
  is_primary : Option Bool
  address : Option String
  deriving Repr, DecidableEq

structure Contact where
  address : List Address
  phone : List Phone
  email : List Email
  deriving Repr, DecidableEq

/-- Embedding of `parse_address` (lines 207-220). -/
def parse_address (e : XElt) : Address :=
  { description := text_or_none e (tags ["description"])
    is_primary := boolean_or_none e (tags ["is-primary"])
    street := text_list e (tags ["street"])
    city := text_or_none e (tags ["city"])
    state := text_or_none e (tags ["state"])
    postcode := text_or_none e (tags ["postcode"])
    country := text_or_none e (tags ["country"]) }

/-- Embedding of `parse_phone` (lines 223-232). -/
def parse_phone (e : XElt) : Phone :=
  { description := text_or_none e (tags ["description"])
    is_primary := boolean_or_none e (tags ["is-primary"])
    number := text_list e (tags ["number"]) }

/-- Embedding of `parse_email` (lines 235-244): the `address` sub-element
is dereferenced unconditionally. -/
def parse_email (e : XElt) : Except PyError Email := do
  let addr ← findOrAttrError e (tags ["address"])
  return { description := text_or_none e (tags ["description"])
           is_primary := boolean_or_none e (tags ["is-primary"])
           address := addr.text }

/-- Embedding of `parse_contact` (lines 194-204). -/
def parse_contact (e : XElt) : Except PyError Contact := do
  let emails ← (e.findall (tags ["email"])).mapM parse_email
  return { address := (e.findall (tags ["address"])).map parse_address
           phone := (e.findall (tags ["phone"])).map parse_phone
           email := emails }

structure Person where
  name : Option String
  organization : Option String
  professional_training : Option String
  id : Option String
  contact : Option Contact
  type : Option CodableValue
  deriving Repr, DecidableEq

/-- Embedding of `parse_person` (lines 125-137): the `name` sub-element is
dereferenced unconditionally; its text may still be `None`. -/
def parse_person (e : XElt) : Except PyError Person := do
  let nameElt ← findOrAttrError e (tags ["name"])
  let contact ← parse_optional_item e (tags ["contact"]) parse_contact
  return { name := nameElt.text
           organization := text_or_none e (tags ["organization"])
           professional_training := text_or_none e (tags ["professional-training"])
           id := text_or_none e (tags ["id"])
           contact := contact
           type := (e.find (tags ["type"])).map parse_codable_value }

structure Device where
  when : PyDatetime
  device_name : Option String
  vendor : Option Person
  model : Option String
  serial_number : Option String
  description : Option String
  deriving Repr, DecidableEq

/-- Embedding of `parse_device` (lines 179-191). -/
def parse_device (e : XElt) : Except PyError Device := do
  let w ← pyCall (e.find (tags ["when"])) when_to_datetime
  let vendor ← parse_optional_item e (tags ["vendor"]) parse_person
  return { when := w
           device_name := text_or_none e (tags ["device-name"])
           vendor := vendor
           model := text_or_none e (tags ["model"])
           serial_number := text_or_none e (tags ["serial-number"])
           description := text_or_none e (tags ["description"]) }

structure Weight where
  when : PyDatetime
  kg : Option PyFloat
  lbs : Option PyFloat
  deriving Repr, DecidableEq

/-- Embedding of `parse_weight` (lines 247-260); the `lbs` lookup uses the
attribute-filtered display path, units equal to lb. -/
def parse_weight (e : XElt) : Except PyError Weight := do
  let w ← pyCall (e.find (tags ["when"])) when_to_datetime
  let kg ← float_or_none e (tags ["value", "kg"])
  let lbs ← float_or_none e [{ tag := "value" }, { tag := "display", attr := some ("units", "lb") }]
  return { when := w, kg := kg, lbs := lbs }

structure Height where
  when : PyDatetime
  value : LengthValue
  deriving Repr, DecidableEq

/-- Embedding of `parse_height` (lines 392-400). -/
def parse_height (e : XElt) : Except PyError Height := do
  let w ← pyCall (e.find (tags ["when"])) when_to_datetime
  let v ← pyCall (e.find (tags ["value"])) parse_length_value
  return { when := w, value := v }

structure StructuredMeasurement where
  value : Option PyFloat
  units : Option CodableValue
  deriving Repr, DecidableEq

/-- Embedding of `parse_structured_measurement` (lines 344-352). -/
def parse_structured_measurement (e : XElt) : Except PyError StructuredMeasurement := do
  let v ← float_or_none e (tags ["value"])
  let units ← parse_optional_item e (tags ["units"]) (fun u => .ok (parse_codable_value u))
  return { value := v, units := units }

structure StructuredNameValue where
  name : CodedValue
  value : StructuredMeasurement
  deriving Repr, DecidableEq

/-- Embedding of `parse_structured_name_value` (lines 333-341). -/
def parse_structured_name_value (e : XElt) : Except PyError StructuredNameValue := do
  let nameElt ← findOrAttrError e (tags ["name"])
  let v ← pyCall (e.find (tags ["value"])) parse_structured_measurement
  return { name := parse_coded_value nameElt, value := v }

structure StructuredApproxDate where
  date : PyDate
  time : Option PyTime
  tz : Option CodableValue
  deriving Repr, DecidableEq

/-- Embedding of `parse_structured_approximate_date` (lines 292-301). -/
def parse_structured_approximate_date (e : XElt) : Except PyError StructuredApproxDate := do
  let d ← pyCall (e.find (tags ["date"])) parse_approximate_date
  let t ← parse_optional_item e (tags ["time"]) parse_time
  let tz ← parse_optional_item e (tags ["tz"]) (fun z => .ok (parse_codable_value z))
  return { date := d, time := t, tz := tz }

structure ApproxDateTime where
  structured : StructuredApproxDate
  descriptive : Option String
  deriving Repr, DecidableEq

/-- Embedding of `parse_structured_approximate_date_time` (lines 281-289). -/
def parse_structured_approximate_date_time (e : XElt) : Except PyError ApproxDateTime := do
  let s ← pyCall (e.find (tags ["structured"])) parse_structured_approximate_date
  return { structured := s, descriptive := text_or_none e (tags ["descriptive"]) }

structure ExerciseSegment where
  activity : CodableValue
  title : Option String
  distance : Option LengthValue
  duration : Option PyFloat
  offset : Option PyFloat
  detail : List StructuredNameValue
  deriving Repr, DecidableEq

/-- Embedding of `parse_exercise_segment` (lines 318-330). -/
def parse_exercise_segment (e : XElt) : Except PyError ExerciseSegment := do
  let act ← pyCall (e.find (tags ["activity"])) (fun a => .ok (parse_codable_value a))
  let dist ← parse_optional_item e (tags ["distance"]) parse_length_value
  let dur ← float_or_none e (tags ["duration"])
  let off ← float_or_none e (tags ["offset"])
  let det ← (e.findall (tags ["detail"])).mapM parse_structured_name_value
  return { activity := act, title := text_or_none e (tags ["title"]),
           distance := dist, duration := dur, offset := off, detail := det }

structure Exercise where
  when : ApproxDateTime
  activity : CodableValue
  title : Option String
  distance : Option LengthValue
  duration : Option PyFloat
  detail : List StructuredNameValue
  segment : List ExerciseSegment
  deriving Repr, DecidableEq

/-- Embedding of `parse_exercise` (lines 263-278). -/
def parse_exercise (e : XElt) : Except PyError Exercise := do
  let w ← pyCall (e.find (tags ["when"])) parse_structured_approximate_date_time
  let act ← pyCall (e.find (tags ["activity"])) (fun a => .ok (parse_codable_value a))
  let dist ← parse_optional_item e (tags ["distance"]) parse_length_value
  let dur ← parse_optional_item e (tags ["duration"]) parse_positive_double
  let det ← (e.findall (tags ["detail"])).mapM parse_structured_name_value
  let seg ← (e.findall (tags ["segment"])).mapM parse_exercise_segment
  return { when := w, activity := act, title := text_or_none e (tags ["title"]),
           distance := dist, duration := dur, detail := det, segment := seg }

structure Awakening where
  when : PyTime
  minutes : Option Int
  deriving Repr, DecidableEq

/-- Embedding of `parse_awakening` (lines 419-427). -/
def parse_awakening (e : XElt) : Except PyError Awakening := do
  let w ← pyCall (e.find (tags ["when"])) parse_time
  let m ← int_or_none e (tags ["minutes"])
  return { when := w, minutes := m }

structure SleepSession where
  when : PyDatetime
  bed_time : PyTime
  wake_time : PyTime
  sleep_minutes : Option Int
  settling_minutes : Option Int
  awakening : List Awakening
  medications : List CodableValue
  deriving Repr, DecidableEq

/-- Embedding of `parse_sleep_session` (lines 403-416).  Note the lookup
path for the `settling_minutes` entry is the string `setting-minutes`,
exactly as in the source. -/
def parse_sleep_session (e : XElt) : Except PyError SleepSession := do
  let w ← pyCall (e.find (tags ["when"])) when_to_datetime
  let bt ← pyCall (e.find (tags ["bed-time"])) parse_time
  let wt ← pyCall (e.find (tags ["wake-time"])) parse_time
  let sm ← int_or_none e (tags ["sleep-minutes"])
  let stm ← int_or_none e (tags ["setting-minutes"])
  let aw ← (e.findall (tags ["awakening"])).mapM parse_awakening
  return { when := w, bed_time := bt, wake_time := wt,
           sleep_minutes := sm, settling_minutes := stm, awakening := aw,
           medications := (e.findall (tags ["medications"])).map parse_codable_value }

structure BloodGlucoseValue where
  mmolperl : PyFloat
  display : Option DisplayValue
  deriving Repr, DecidableEq

/-- Embedding of `parse_blood_glucose_value` (lines 567-572). -/
def parse_blood_glucose_value (e : XElt) : Except PyError BloodGlucoseValue := do
  let m ← pyCall (e.find (tags ["mmolPerL"])) parse_positive_double
  let disp ← parse_optional_item e (tags ["display"]) (fun d => .ok (parse_display_value d))
  return { mmolperl := m, display := disp }

structure BloodGlucose where
  when : PyDatetime
  value : BloodGlucoseValue
  glucose_measurement_type : CodableValue
  outside_operating_temperature : Option Bool
  is_control_test : Option Bool
  normalcy : Option Int
  measurement_context : Option CodableValue
  deriving Repr, DecidableEq

/-- Embedding of `parse_blood_glucose` (lines 511-564).  Note the lookup
path for the `outside_operating_temperature` entry is the string
`outside-operating_temp` (hyphen then underscore), exactly as in the
source. -/
def parse_blood_glucose (e : XElt) : Except PyError BloodGlucose := do
  let w ← pyCall (e.find (tags ["when"])) when_to_datetime
  let v ← pyCall (e.find (tags ["value"])) parse_blood_glucose_value
  let gmt ← pyCall (e.find (tags ["glucose-measurement-type"])) (fun g => .ok (parse_codable_value g))
  let normalcy ← int_or_none e (tags ["normalcy"])
  let mc ← parse_optional_item e (tags ["measurement-context"]) (fun c => .ok (parse_codable_value c))
  return { when := w, value := v, glucose_measurement_type := gmt,
           outside_operating_temperature := boolean_or_none e (tags ["outside-operating_temp"]),
           is_control_test := boolean_or_none e (tags ["is-control-test"]),
           normalcy := normalcy, measurement_context := mc }

structure BloodPressure where
  when : PyDatetime
  systolic : Option Int
  diastolic : Option Int
  pulse : Option Int
  irregular_heartbeat : Option Bool
  deriving Repr, DecidableEq

/-- Embedding of the inline blood-pressure dictionary built both in
`HealthVaultConn.get_blood_pressure_measurements` (`healthvault.py` lines
696-703) and in the blood-pressure branch of `parse_group`. -/
def parse_blood_pressure (e : XElt) : Except PyError BloodPressure := do
  let w ← pyCall (e.find (tags ["when"])) when_to_datetime
  let sys ← int_or_none e (tags ["systolic"])
  let dia ← int_or_none e (tags ["diastolic"])
  let pulse ← int_or_none e (tags ["pulse"])
  return { when := w, systolic := sys, diastolic := dia, pulse := pulse,
           irregular_heartbeat := boolean_or_none e (tags ["irregular-heartbeat"]) }

structure BasicDemographicData where
  gender : Option String
  birthyear : Option Int
  country_text : Option String
  country_code : Option String
  postcode : Option String
  state : Option String
  deriving Repr, DecidableEq

/-! ## `parse_group` (`xmlutils.py` lines 585-637)

The dispatch compares the `thing/type-id` text of the group with attributes of
the `DataType` class.  `healthvaultlib/datatypes.py` defines only the
lower-case attribute names (`basic_demographic_data`, ...), while
`parse_group` reads upper-case names (`DataType.BASIC_DEMOGRAPHIC_DATA`,
...); in Python an absent class attribute raises `AttributeError`, so
attribute access is modelled as a lookup in the table of attributes the
`DataType` class actually defines. -/

/-- The attributes defined on `class DataType` in
`healthvaultlib/datatypes.py`. -/
def dataTypeAttrs : List (String × String) :=
  [("basic_demographic_data", "3b3e6b16-eb69-483c-8d7e-dfe116ae6092"),
   ("blood_pressure_measurements", "ca3c57f4-f4c1-4e15-be67-0a3caf5414ed"),
   ("devices", "ef9cf8d5-6c0b-4292-997f-4047240bc7be"),
   ("exercise", "85a21ddb-db20-4c65-8d30-33c899ccf612"),
   ("height_measurements", "40750a6a-89b2-455c-bd8d-b420a4cb500b"),
   ("sleep_sessions", "11c52484-7f1a-11db-aeac-87d355d89593"),
   ("weight_measurements", "3d34d87e-7fc1-4153-800f-f56592cb0d17")]

/-- Embedding of the attribute access `DataType.name`: the value of the
attribute, or `AttributeError` when `datatypes.py` does not define it. -/
def dataTypeGetattr (name : String) : Except PyError String :=
  match dataTypeAttrs.find? (fun p => p.1 == name) with
  | some p => .ok p.2
  | none => .error (.attributeError ("type object DataType has no attribute " ++ name))

/-- Python `%s` rendering of an optional string. -/
def optStr (o : Option String) : String :=
  match o with
  | none => "None"
  | some s => s

/-- The possible results of `parse_group`, one constructor per branch of
its dispatch (the empty-group early return, the eight type branches). -/
inductive GroupResult where
  | noResults
  | basic (b : BasicDemographicData)
  | glucoses (l : List BloodGlucose)
  | bloodPressures (l : List BloodPressure)
  | devices (l : List Device)
  | exercises (l : List Exercise)
  | heights (l : List Height)
  | sleepSessions (l : List SleepSession)
  | weights (l : List Weight)
  deriving Repr, DecidableEq

/-- Embedding of `parse_group`: an empty group (no `thing` children)
returns the empty result before the type identifier is read; otherwise the
type identifier is compared against the `DataType` attributes in source
order (each access can raise `AttributeError`), and a non-empty group
matching no branch raises the unknown-data-type `HealthVaultException`. -/
def parse_group (group : XElt) : Except PyError GroupResult := do
  if (group.findall (tags ["thing"])).length = 0 then
    return GroupResult.noResults
  let data_type := (← findOrAttrError group (tags ["thing", "type-id"])).text
  if data_type = some (← dataTypeGetattr "BASIC_DEMOGRAPHIC_DATA") then
    pyCall (group.find (tags ["thing", "data-xml", "basic"])) (fun basic => do
      let birthyear ← int_or_none basic (tags ["birthyear"])
      return GroupResult.basic
        { gender := text_or_none basic (tags ["gender"])
          birthyear := birthyear
          country_text := text_or_none basic (tags ["country", "text"])
          country_code := text_or_none basic (tags ["country", "code", "value"])
          postcode := text_or_none basic (tags ["postcode"])
          state := text_or_none basic (tags ["state", "text"]) })
  else if data_type = some (← dataTypeGetattr "BLOOD_GLUCOSE_MEASUREMENT") then
    return GroupResult.glucoses
      (← (group.findall (tags ["thing", "data-xml", "blood-glucose"])).mapM parse_blood_glucose)
  else if data_type = some (← dataTypeGetattr "BLOOD_PRESSURE_MEASUREMENTS") then
    return GroupResult.bloodPressures
      (← (group.findall (tags ["thing", "data-xml", "blood-pressure"])).mapM parse_blood_pressure)
  else if data_type = some (← dataTypeGetattr "DEVICES") then
    return GroupResult.devices
      (← (group.findall (tags ["thing", "data-xml", "device"])).mapM parse_device)
  else if data_type = some (← dataTypeGetattr "EXERCISE") then
    return GroupResult.exercises
      (← (group.findall (tags ["thing", "data-xml", "exercise"])).mapM parse_exercise)
  else if data_type = some (← dataTypeGetattr "HEIGHT_MEASUREMENTS") then
    return GroupResult.heights
      (← (group.findall (tags ["thing", "data-xml", "height"])).mapM parse_height)
  else if data_type = some (← dataTypeGetattr "SLEEP_SESSIONS") then
    return GroupResult.sleepSessions
      (← (group.findall (tags ["thing", "data-xml", "sleep-am"])).mapM parse_sleep_session)
  else if data_type = some (← dataTypeGetattr "WEIGHT_MEASUREMENTS") then
    return GroupResult.weights
      (← (group.findall (tags ["thing", "data-xml", "weight"])).mapM parse_weight)
  else
    throw (.healthVaultException
      ("Unknown data type in group response: name=" ++ optStr data_type) none)

/-! ## SHA-1 (`hashlib.sha1`), base64 (`base64.encodestring`) and HMAC-SHA1
(`hmac.new(..., hashlib.sha1)`), the library primitives used by
`_build_and_send_request` and `HVCrypto`.  Bytes are `Nat` values `< 256`;
32-bit words are `Nat` values reduced modulo `2 ^ 32`. -/

/-- Reduce to a 32-bit word. -/
def u32 (x : Nat) : Nat := x % 4294967296

/-- Rotate a 32-bit word left by `n` bits. -/
def rotl (n x : Nat) : Nat := u32 (x <<< n) ||| (x % 4294967296) >>> (32 - n)

/-- Big-endian bytes of a word, most significant first. -/
def word4 (n : Nat) : List Nat :=
  [n / 16777216 % 256, n / 65536 % 256, n / 256 % 256, n % 256]

/-- Big-endian 8-byte rendering of the bit length, as SHA-1 padding needs. -/
def word8 (n : Nat) : List Nat :=
  [n / 72057594037927936 % 256, n / 281474976710656 % 256,
   n / 1099511627776 % 256, n / 4294967296 % 256,
   n / 16777216 % 256, n / 65536 % 256, n / 256 % 256, n % 256]

/-- Combine four bytes into a big-endian 32-bit word, chunk by chunk. -/
def wordsOfBytes : List Nat → List Nat
  | a :: b :: c :: d :: rest => (a * 16777216 + b * 65536 + c * 256 + d) :: wordsOfBytes rest
  | _ => []

/-- SHA-1 message padding: append `0x80`, zero bytes up to 56 mod 64, and
the 8-byte big-endian bit length. -/
def sha1Pad (msg : List Nat) : List Nat :=
  let len := msg.length
  let zeros := (120 - (len + 1) % 64) % 64
  msg ++ [128] ++ List.replicate zeros 0 ++ word8 (8 * len)

/-- Split a byte list into 64-byte chunks (fuel-driven so that the kernel
can evaluate it). -/
def chunksOf64 : Nat → List Nat → List (List Nat)
  | 0, _ => []
  | _, [] => []
  | fuel + 1, l => l.take 64 :: chunksOf64 fuel (l.drop 64)

/-- Extend 16 message words to the 80-word SHA-1 schedule. -/
def sha1Extend (ws : List Nat) : List Nat :=
  (List.range 64).foldl
    (fun acc _ =>
      let n := acc.length
      acc ++ [rotl 1 ((acc.getD (n - 3) 0) ^^^ (acc.getD (n - 8) 0) ^^^
                      (acc.getD (n - 14) 0) ^^^ (acc.getD (n - 16) 0))])
    ws

/-- One SHA-1 compression round. -/
def sha1Step (w : List Nat) (st : Nat × Nat × Nat × Nat × Nat) (i : Nat) :
    Nat × Nat × Nat × Nat × Nat :=
  let (a, b, c, d, e) := st
  let f :=
    if i < 20 then (b &&& c) ||| ((b ^^^ 4294967295) &&& d)
    else if i < 40 then b ^^^ c ^^^ d
    else if i < 60 then (b &&& c) ||| (b &&& d) ||| (c &&& d)
    else b ^^^ c ^^^ d
  let k :=
    if i < 20 then 1518500249
    else if i < 40 then 1859775393
    else if i < 60 then 2400959708
    else 3395469782
  let temp := u32 (rotl 5 a + f + e + k + w.getD i 0)
  (temp, a, rotl 30 b, c, d)

/-- Process one 64-byte chunk, updating the five state words. -/
def sha1Compress (h : List Nat) (chunk : List Nat) : List Nat :=
  let w := sha1Extend (wordsOfBytes chunk)
  let st0 := (h.getD 0 0, h.getD 1 0, h.getD 2 0, h.getD 3 0, h.getD 4 0)
  let fin := (List.range 80).foldl (sha1Step w) st0
  [u32 (h.getD 0 0 + fin.1), u32 (h.getD 1 0 + fin.2.1), u32 (h.getD 2 0 + fin.2.2.1),
   u32 (h.getD 3 0 + fin.2.2.2.1), u32 (h.getD 4 0 + fin.2.2.2.2)]

/-- Embedding of `hashlib.sha1(msg).digest()`: the 20-byte SHA-1 digest. -/
def sha1 (msg : List Nat) : List Nat :=
  let padded := sha1Pad msg
  let hs := (chunksOf64 padded.length padded).foldl sha1Compress
    [1732584193, 4023233417, 2562383102, 271733878, 3285377520]
  hs.flatMap word4

/-- The standard base64 alphabet. -/
def b64Alphabet : List Char :=
  "ABCDEFGHIJKLMNOPQRSTUVWXYZabcdefghijklmnopqrstuvwxyz0123456789+/".data

/-- Character for one six-bit value. -/
def b64Char (n : Nat) : Char := b64Alphabet.getD n '?'

/-- Core base64 encoding (no line breaks), three bytes to four characters,
with `=` padding for a trailing group of one or two bytes. -/
def b64encode : List Nat → List Char
  | a :: b :: c :: rest =>
    let n := a * 65536 + b * 256 + c
    b64Char (n / 262144) :: b64Char (n / 4096 % 64) :: b64Char (n / 64 % 64) ::
      b64Char (n % 64) :: b64encode rest
  | [a, b] =>
    let n := a * 65536 + b * 256
    [b64Char (n / 262144), b64Char (n / 4096 % 64), b64Char (n / 64 % 64), '=']
  | [a] =>
    let n := a * 65536
    [b64Char (n / 262144), b64Char (n / 4096 % 64), '=', '=']
  | [] => []

/-- Six-bit value of a base64 character (the alphabet index). -/
def b64DecChar (c : Char) : Nat := b64Alphabet.indexOf c

/-- Base64 decoding of encoder output, used to show the encoder is
injective on byte lists. -/
def b64decode : List Char → List Nat
  | w :: x :: y :: z :: rest =>
    if z = '=' then
      if y = '=' then
        [b64DecChar w * 4 + b64DecChar x / 16]
      else
        let n := b64DecChar w * 262144 + b64DecChar x * 4096 + b64DecChar y * 64
        [n / 65536, n / 256 % 256]
    else
      let n := b64DecChar w * 262144 + b64DecChar x * 4096 + b64DecChar y * 64 + b64DecChar z
      n / 65536 :: n / 256 % 256 :: n % 256 :: b64decode rest
  | _ => []

/-- Embedding of Python 2 `base64.encodestring`: encode 57-byte chunks,
each followed by a newline (fuel-driven). -/
def encodestringAux : Nat → List Nat → List Char
  | 0, _ => []
  | _, [] => []
  | fuel + 1, l => b64encode (l.take 57) ++ '\n' :: encodestringAux fuel (l.drop 57)

/-- Embedding of `base64.encodestring(s)` as a character list. -/
def base64_encodestring (l : List Nat) : List Char :=
  encodestringAux (l.length + 1) l

/-- The ASN.1 DigestInfo header for SHA-1 that `pad_rsa` prepends
(`\x30\x21\x30\x09\x06\x05\x2b\x0E\x03\x02\x1A\x05\x00\x04\x14`). -/
def asn1DigestInfoSha1 : List Nat :=
  [48, 33, 48, 9, 6, 5, 43, 14, 3, 2, 26, 5, 0, 4, 20]

/-- The modulus byte length set in `HVCrypto.__init__`:
`(rsa_n_bit_length + 7) / 8` with `rsa_n_bit_length = 2048`. -/
def hvcrypto_em : Nat := (2048 + 7) / 8

/-- Embedding of `HVCrypto.pad_rsa`: `padlen` is computed with Python
integer arithmetic (it can go negative); the padding string is built by a
comprehension over `range(padlen)`, which is empty for a negative
`padlen`, and the pieces are concatenated.  No check and no exception
anywhere. -/
def pad_rsa (em : Nat) (hashed_msg : List Nat) : List Nat :=
  let padlen : Int := (em : Int) - asn1DigestInfoSha1.length - hashed_msg.length - 3
  let padding := List.replicate padlen.toNat 255
  [0, 1] ++ padding ++ [0] ++ asn1DigestInfoSha1 ++ hashed_msg

/-! ## The request envelope builder
(`HealthVaultConn._build_and_send_request`, `healthvault.py` lines 316-373)

The connection state carries the fields the builder reads.  `person_id` is
only ever assigned by `connect`; before that it is missing, modelled as
`none` (like `wctoken = None` and the `record_id = None` set in
`__init__`). -/

structure HVConn where
  wctoken : Option String
  record_id : Option String
  person_id : Option String
  auth_token : String
  sharedsec : String
  authorized : Bool
  deriving Repr, DecidableEq

/-- Embedding of `healthvault.py` lines 333-334: the base64 of the SHA-1
digest of the `<info>` fragment, wrapped in the `<info-hash>` element
(`infodigest.strip()` is interpolated). -/
def headerinfo (info : List Nat) : String :=
  "<info-hash><hash-data algName=\"SHA1\">" ++
    pyStrip (String.mk (base64_encodestring (sha1 info))) ++
    "</hash-data></info-hash>"

/-- Path of the selected-record-id element in a `GetPersonInfo` response. -/
def gpiRecordPath : List PathSeg :=
  tags ["\x7burn:com.microsoft.wc.methods.response.GetPersonInfo\x7dinfo",
        "person-info", "selected-record-id"]

/-- Path of the person-id element in a `GetPersonInfo` response. -/
def gpiPersonPath : List PathSeg :=
  tags ["\x7burn:com.microsoft.wc.methods.response.GetPersonInfo\x7dinfo",
        "person-info", "person-id"]

/-- Embedding of `_get_record_id` applied to the parsed response tree: raise
when either element is missing, otherwise return the pair of their text
values (each of which is `None` for an empty element). -/
def _get_record_id (tree : XElt) : Except PyError (Option String × Option String) :=
  match tree.find gpiRecordPath with
  | none => .error (.healthVaultException "selected record ID not found in HV response" none)
  | some ridElt =>
    match tree.find gpiPersonPath with
    | none => .error (.healthVaultException "person ID not found in HV response" none)
    | some pidElt => .ok (ridElt.text, pidElt.text)

/-- Embedding of `HealthVaultConn.connect`: assign `self.wctoken` first,
then perform the resolution round trip; on success assign `record_id` and
`person_id` in one tuple assignment and set `authorized`; on an exception
the connection keeps the state it had at the raise point (token already
replaced, identifiers untouched).  The parsed response tree stands for the
network round trip. -/
def connect (conn : HVConn) (wctoken : String) (tree : XElt) :
    Except (PyError × HVConn) HVConn :=
  let conn1 := { conn with wctoken := some wctoken }
  match _get_record_id tree with
  | .error e => .error (e, conn1)
  | .ok (rid, pid) =>
    .ok { conn1 with record_id := rid, person_id := pid, authorized := true }

/-! ## Concrete fixtures

Response fragments used to evaluate the embedded parsers at concrete
inputs (mirroring the shapes in the repository test fixtures and in the
docstring of `parse_blood_glucose`). -/

/-- A `blood-glucose` element with every optional field populated,
including `<outside-operating-temp>true</outside-operating-temp>`. -/
def glucoseFullElt : XElt :=
  .mk "blood-glucose" [] none [
    .mk "when" [] none [
      .mk "date" [] none [.mk "y" [] (some "2006") [], .mk "m" [] (some "1") [],
                          .mk "d" [] (some "1") []],
      .mk "time" [] none [.mk "h" [] (some "9") [], .mk "m" [] (some "30") [],
                          .mk "s" [] (some "0") [], .mk "f" [] (some "0") []]],
    .mk "value" [] none [.mk "mmolPerL" [] (some "7.444444") [],
                         .mk "display" [("units", "mmolPerL")] (some "7.444444") []],
    .mk "glucose-measurement-type" [] none [
      .mk "text" [] (some "Whole blood") [],
      .mk "code" [] none [.mk "value" [] (some "wb") [], .mk "family" [] (some "wc") [],
                          .mk "type" [] (some "glucose-measurement-type") [],
                          .mk "version" [] (some "1") []]],
    .mk "outside-operating-temp" [] (some "true") [],
    .mk "is-control-test" [] (some "true") [],
    .mk "normalcy" [] (some "1") [],
    .mk "measurement-context" [] none [
      .mk "text" [] (some "Before meal") [],
      .mk "code" [] none [.mk "value" [] (some "BeforeMeal") [], .mk "family" [] (some "wc") [],
                          .mk "type" [] (some "glucose-measurement-context") [],
                          .mk "version" [] (some "1") []]]]

/-- A `sleep-am` element with every optional field populated, including
`<settling-minutes>15</settling-minutes>`. -/
def sleepFullElt : XElt :=
  .mk "sleep-am" [] none [
    .mk "when" [] none [
      .mk "date" [] none [.mk "y" [] (some "2005") [], .mk "m" [] (some "1") [],
                          .mk "d" [] (some "1") []],
      .mk "time" [] none [.mk "h" [] (some "6") [], .mk "m" [] (some "0") [],
                          .mk "s" [] (some "0") [], .mk "f" [] (some "0") []]],
    .mk "bed-time" [] none [.mk "h" [] (some "0") [], .mk "m" [] (some "0") [],
                            .mk "s" [] (some "0") [], .mk "f" [] (some "0") []],
    .mk "wake-time" [] none [.mk "h" [] (some "7") [], .mk "m" [] (some "0") [],
                             .mk "s" [] (some "0") [], .mk "f" [] (some "0") []],
    .mk "sleep-minutes" [] (some "420") [],
    .mk "settling-minutes" [] (some "15") [],
    .mk "awakening" [] none [
      .mk "when" [] none [.mk "h" [] (some "0") [], .mk "m" [] (some "10") [],
                          .mk "s" [] (some "0") [], .mk "f" [] (some "0") []],
      .mk "minutes" [] (some "10") []],
    .mk "medications" [] none [
      .mk "text" [] (some "Benzaclin") [],
      .mk "code" [] none [.mk "value" [] (some "ccabbac8") [], .mk "family" [] (some "Mayo") [],
                          .mk "type" [] (some "Medications") [],
                          .mk "version" [] (some "2") []]]]

/-- A `when` element whose `date` part is entirely absent. -/
def whenNoDateElt : XElt :=
  .mk "when" [] none [
    .mk "time" [] none [.mk "h" [] (some "9") [], .mk "m" [] (some "30") [],
                        .mk "s" [] (some "0") []]]

/-- A fully populated `when` element. -/
def whenFullElt : XElt :=
  .mk "when" [] none [
    .mk "date" [] none [.mk "y" [] (some "2006") [], .mk "m" [] (some "1") [],
                        .mk "d" [] (some "1") []],
    .mk "time" [] none [.mk "h" [] (some "9") [], .mk "m" [] (some "30") [],
                        .mk "s" [] (some "0") []]]

/-- An approximate-date element with all three parts populated. -/
def approxDateFullElt : XElt :=
  .mk "date" [] none [.mk "y" [] (some "2005") [], .mk "m" [] (some "2") [],
                      .mk "d" [] (some "3") []]

/-- An approximate-date element with no sub-elements at all. -/
def approxDateEmptyElt : XElt := .mk "date" [] none []

/-- A batch group with no `thing` children. -/
def emptyGroupElt : XElt := .mk "group" [] none []

/-- A non-empty batch group whose type identifier matches no known type. -/
def unknownTypeGroupElt : XElt :=
  .mk "group" [] none [
    .mk "thing" [] none [.mk "type-id" [] (some "totally-unknown-uuid") []]]

/-! ## C1.  The status-to-exception classifier -/

/-- C1: the classifier is a total pure lookup, but it does not send
code 65 to the expiry class: `_get_exception_class_for` compares only with
`CREDENTIAL_TOKEN_EXPIRED = 7` and `ACCESS_DENIED = 11`, so
`AUTHENTICATED_SESSION_TOKEN_EXPIRED = 65` falls through to the generic
class — contradicting the test suite of the repository
`test_exc.TestException.test_session_expiration`, which expects the expiry
class for code 65. -/
theorem classifier_drops_session_expiry_code :
    _get_exception_class_for StatusCodes.AUTHENTICATED_SESSION_TOKEN_EXPIRED =
      ExcClass.healthVaultException ∧
    _get_exception_class_for StatusCodes.CREDENTIAL_TOKEN_EXPIRED =
      ExcClass.healthVaultTokenExpiredException ∧
    _get_exception_class_for StatusCodes.ACCESS_DENIED =
      ExcClass.healthVaultAccessDeniedException ∧
    _get_exception_class_for StatusCodes.AUTHENTICATED_SESSION_TOKEN_EXPIRED ≠
      ExcClass.healthVaultTokenExpiredException := by
  decide

/-! ## C2.  The `<msg-time>` timestamp format -/

/-- C2: `format_datetime` renders the MONTH in the minutes position: at
`datetime(2012, 11, 12, 11, 24, 5)` it produces `2012-11-12T11:11:05`
instead of the `2012-11-12T11:24:05` promised by its own docstring
(`CCYY-MM-DDThh:mm:ss`), because the strftime format string is
`%Y-%m-%dT%H:%m:%S` (month directive `%m` where the minute directive `%M`
belongs).  The same string is what `_build_and_send_request` embeds as
`<msg-time>`. -/
theorem format_datetime_month_in_minute_position :
    format_datetime ⟨2012, 11, 12, 11, 24, 5⟩ = "2012-11-12T11:11:05" ∧
    spec_datetime_format ⟨2012, 11, 12, 11, 24, 5⟩ = "2012-11-12T11:24:05" ∧
    format_datetime ⟨2012, 11, 12, 11, 24, 5⟩ ≠
      spec_datetime_format ⟨2012, 11, 12, 11, 24, 5⟩ := by
  decide

/-! ## C9.  `parse_group` on empty and unknown-type groups -/

/-- C9: a group with zero `thing` children parses to the empty result
without the type identifier being examined, but a non-empty group never
reaches the unknown-data-type `HealthVaultException`: the first dispatch
comparison reads `DataType.BASIC_DEMOGRAPHIC_DATA`, an attribute
`datatypes.py` does not define (it defines `basic_demographic_data`), so
every non-empty group — whatever its type identifier — raises
`AttributeError` instead. -/
theorem parse_group_empty_short_circuit_and_broken_dispatch :
    parse_group emptyGroupElt = .ok GroupResult.noResults ∧
    parse_group unknownTypeGroupElt =
      .error (.attributeError "type object DataType has no attribute BASIC_DEMOGRAPHIC_DATA") := by
  decide

/-! ## C6.  `pad_rsa` sizing -/

set_option maxRecDepth 4000 in
/-- C6 counterexample: a 239-byte hash input does not fit a 256-byte
block (15-byte DigestInfo header + 239 + 3 > 256), yet `pad_rsa` raises
nothing: it silently returns a block of 257 bytes — not the modulus size
of `hvcrypto_em = 256` bytes. -/
theorem pad_rsa_oversize_returns_silently :
    (pad_rsa hvcrypto_em (List.replicate 239 0)).length = 257 ∧ hvcrypto_em = 256 := by
  decide

/-- C6 amended: `pad_rsa` never raises; it always returns
`max 256 (18 + len)` bytes — exactly the modulus size with the documented
`00 01 FF..FF 00 DigestInfo digest` layout when the input fits
(`len ≤ 238`), and an oversized block with an empty `FF` run (from
`range` of a negative length) when it does not. -/
theorem pad_rsa_layout (msg : List Nat) :
    (pad_rsa hvcrypto_em msg).length = max 256 (18 + msg.length) ∧
    (msg.length ≤ 238 →
      pad_rsa hvcrypto_em msg =
        [0, 1] ++ List.replicate (238 - msg.length) 255 ++ [0] ++
          asn1DigestInfoSha1 ++ msg) := by
  constructor
  · simp [pad_rsa, asn1DigestInfoSha1, hvcrypto_em]
    omega
  · intro h
    have ht : ((hvcrypto_em : Int) - (asn1DigestInfoSha1.length : Int) -
        (msg.length : Int) - 3).toNat = 238 - msg.length := by
      simp [hvcrypto_em, asn1DigestInfoSha1]
      omega
    simp [pad_rsa, ht]

/-- Witness for the amended C6 statement at a 20-byte digest (the SHA-1
case the library actually signs): the block is exactly 256 bytes with the
documented layout. -/
theorem pad_rsa_layout_witness :
    (pad_rsa hvcrypto_em (List.replicate 20 7)).length = max 256 (18 + (List.replicate 20 7).length) ∧
    pad_rsa hvcrypto_em (List.replicate 20 7) =
      [0, 1] ++ List.replicate (238 - (List.replicate 20 7).length) 255 ++ [0] ++
        asn1DigestInfoSha1 ++ List.replicate 20 7 :=
  ⟨(pad_rsa_layout (List.replicate 20 7)).1,
   (pad_rsa_layout (List.replicate 20 7)).2 (by decide)⟩

/-! ## C5.  The composite `when` decoders -/

/-- C5 counterexample: the zero substitution makes the decoders raise on
absent date parts — a `when` element with no `date` sub-element yields
`datetime.datetime(0, 0, 0, 9, 30, 0)`, which raises `ValueError` (year
and month 0 are out of range), and an empty approximate date yields
`datetime.date(0, 0, 0)`, likewise an error — so the decoders do not
return "without raising" on every element. -/
theorem when_decoders_raise_on_missing_date :
    when_to_datetime whenNoDateElt =
      .error (.valueError "field out of range for datetime.datetime") ∧
    parse_approximate_date approxDateEmptyElt =
      .error (.valueError "field out of range for datetime.date") := by
  decide

/-! ## C4.  Fully populated optional fields -/

/-- C4 counterexample: `glucoseFullElt` carries a populated
`<outside-operating-temp>` flag and `sleepFullElt` a populated
`<settling-minutes>` count, yet parsing returns `None` for both record
fields: `parse_blood_glucose` looks the flag up under
`outside-operating_temp` (underscore) and `parse_sleep_session` looks the
count up under `setting-minutes`, neither of which matches the populated
element (whose value the correctly spelt lookup, also evaluated here,
does see). -/
theorem populated_fields_dropped_by_misspelled_paths :
    Except.map (fun r => r.outside_operating_temperature) (parse_blood_glucose glucoseFullElt) =
      .ok none ∧
    boolean_or_none glucoseFullElt (tags ["outside-operating-temp"]) = some true ∧
    Except.map (fun r => r.settling_minutes) (parse_sleep_session sleepFullElt) = .ok none ∧
    int_or_none sleepFullElt (tags ["settling-minutes"]) = .ok (some 15) := by
  decide

/-- C4 amended: on the fully populated elements every optional field is
reproduced with its parsed value EXCEPT `outside_operating_temperature`
and `settling_minutes`, which come back `None` because of the misspelled
lookup paths (`outside-operating_temp`, `setting-minutes`). -/
theorem fully_populated_parse_complete_except_misspelled :
    parse_blood_glucose glucoseFullElt = .ok
      { when := ⟨2006, 1, 1, 9, 30, 0⟩,
        value := { mmolperl := { mantissa := 7444444, scale := 6 },
                   display := some { text := none, units := some "mmolPerL",
                                     units_code := none, display := some "7.444444" } },
        glucose_measurement_type :=
          { text := some "Whole blood",
            code := [{ value := some "wb", family := [some "wc"],
                       type := some "glucose-measurement-type", version := [some "1"] }] },
        outside_operating_temperature := none,
        is_control_test := some true,
        normalcy := some 1,
        measurement_context := some
          { text := some "Before meal",
            code := [{ value := some "BeforeMeal", family := [some "wc"],
                       type := some "glucose-measurement-context", version := [some "1"] }] } } ∧
    parse_sleep_session sleepFullElt = .ok
      { when := ⟨2005, 1, 1, 6, 0, 0⟩,
        bed_time := ⟨0, 0, 0, 0⟩,
        wake_time := ⟨7, 0, 0, 0⟩,
        sleep_minutes := some 420,
        settling_minutes := none,
        awakening := [{ when := ⟨0, 10, 0, 0⟩, minutes := some 10 }],
        medications := [{ text := some "Benzaclin",
                          code := [{ value := some "ccabbac8", family := [some "Mayo"],
                                     type := some "Medications",
                                     version := [some "2"] }] }] } := by
  decide

/-! ## C5 continued: the amended decoder statement -/

/-- Computation rule for `Except` bind on a success value. -/
theorem exceptOkBind {ε α β : Type} (a : α) (f : α → Except ε β) :
    (Except.ok a : Except ε α) >>= f = f a := rfl

/-- Computation rule for `Except` pure. -/
theorem exceptPureEq {ε α : Type} (a : α) :
    (pure a : Except ε α) = Except.ok a := rfl

/-- C5 amended: the decoders do read the six (or three) sub-elements with
the zero default — whenever each zero-defaulted text converts to an
integer, the result is exactly the `datetime.datetime` (or
`datetime.date`) constructor applied to those integers, which returns the
combined value when the fields are in range and raises `ValueError`
otherwise (in particular whenever a date sub-element is absent, since a
zero year, month or day is out of range). -/
theorem when_decoders_build_from_zero_defaulted_fields
    (w e : XElt) (y mo d h mi s ay am ad : Int) :
    (pyInt (whenText w (tags ["date", "y"])) = .ok y →
     pyInt (whenText w (tags ["date", "m"])) = .ok mo →
     pyInt (whenText w (tags ["date", "d"])) = .ok d →
     pyInt (whenText w (tags ["time", "h"])) = .ok h →
     pyInt (whenText w (tags ["time", "m"])) = .ok mi →
     pyInt (whenText w (tags ["time", "s"])) = .ok s →
     when_to_datetime w = mkPyDatetime y mo d h mi s) ∧
    (pyInt (whenText e (tags ["y"])) = .ok ay →
     pyInt (whenText e (tags ["m"])) = .ok am →
     pyInt (whenText e (tags ["d"])) = .ok ad →
     parse_approximate_date e = mkPyDate ay am ad) := by
  constructor
  · intro h1 h2 h3 h4 h5 h6
    simp only [when_to_datetime, List.map_cons, List.map_nil, List.mapM, List.mapM.loop,
      h1, h2, h3, h4, h5, h6, exceptOkBind, exceptPureEq, List.reverse_cons, List.reverse_nil,
      List.nil_append, List.cons_append]
  · intro h1 h2 h3
    simp only [parse_approximate_date, List.map_cons, List.map_nil, List.mapM, List.mapM.loop,
      h1, h2, h3, exceptOkBind, exceptPureEq, List.reverse_cons, List.reverse_nil,
      List.nil_append, List.cons_append]

/-- A `when` element carrying only the date part; the time fields take the
zero default. -/
def whenDateOnlyElt : XElt :=
  .mk "when" [] none [
    .mk "date" [] none [.mk "y" [] (some "2006") [], .mk "m" [] (some "1") [],
                        .mk "d" [] (some "1") []]]

/-- Witness for the amended C5 statement: a date-only `when` decodes with
hours, minutes and seconds defaulted to zero, and a populated approximate
date decodes to the corresponding `datetime.date`. -/
theorem when_decoders_build_witness :
    when_to_datetime whenDateOnlyElt = mkPyDatetime 2006 1 1 0 0 0 ∧
    parse_approximate_date approxDateFullElt = mkPyDate 2005 2 3 :=
  ⟨(when_decoders_build_from_zero_defaulted_fields whenDateOnlyElt approxDateFullElt
      2006 1 1 0 0 0 2005 2 3).1
      (by decide) (by decide) (by decide) (by decide) (by decide) (by decide),
   (when_decoders_build_from_zero_defaulted_fields whenDateOnlyElt approxDateFullElt
      2006 1 1 0 0 0 2005 2 3).2
      (by decide) (by decide) (by decide)⟩

/-! ## C3 and C10.  The record-resolution transition -/

/-- A connection that has established an app session but not yet resolved
a record (the state after `__init__` without a wctoken). -/
def conn0 : HVConn :=
  { wctoken := none, record_id := none, person_id := none,
    auth_token := "AT", sharedsec := "12345", authorized := false }

/-- A `GetPersonInfo` response in which both identifier elements are
present but `selected-record-id` is empty (no text). -/
def respEmptyRidTree : XElt :=
  .mk "response" [] none [
    .mk "\x7burn:com.microsoft.wc.methods.response.GetPersonInfo\x7dinfo" [] none [
      .mk "person-info" [] none [
        .mk "selected-record-id" [] none [],
        .mk "person-id" [] (some "PID") []]]]

/-- A `GetPersonInfo` response carrying both identifiers. -/
def respFullTree : XElt :=
  .mk "response" [] none [
    .mk "\x7burn:com.microsoft.wc.methods.response.GetPersonInfo\x7dinfo" [] none [
      .mk "person-info" [] none [
        .mk "selected-record-id" [] (some "RID") [],
        .mk "person-id" [] (some "PID") []]]]

/-- A response with neither identifier element. -/
def respEmptyTree : XElt := .mk "response" [] none []

/-- The state `connect` produces from `conn0` on `respEmptyRidTree`. -/
def connPartial : HVConn :=
  { wctoken := some "TOKEN", record_id := none, person_id := some "PID",
    auth_token := "AT", sharedsec := "12345", authorized := true }

/-- C3 counterexample: when both identifier elements are found but
`selected-record-id` is empty, `connect` succeeds and leaves the pair
partially populated — `record_id = None` while `person_id` is set — since
`_get_record_id` checks only element presence, never the text. -/
theorem connect_can_half_populate_pair :
    connect conn0 "TOKEN" respEmptyRidTree = .ok connPartial ∧
    connPartial.record_id = none ∧ connPartial.person_id = some "PID" ∧
    connPartial.authorized = true := by
  decide

/-- C3 amended: `connect` either succeeds — assigning `record_id` and
`person_id` together, in one tuple assignment, to the text values of the
two response elements (which it only checks for presence, so an empty
element still yields `None`) — or raises, leaving both identifiers
unchanged.  The pair is assigned atomically, but "both set or neither" only
follows when every found identifier element carries text. -/
theorem connect_assigns_pair_atomically (conn : HVConn) (w : String) (tree : XElt) :
    (∀ s, connect conn w tree = .ok s →
      ∃ ridElt pidElt,
        tree.find gpiRecordPath = some ridElt ∧
        tree.find gpiPersonPath = some pidElt ∧
        s = { conn with wctoken := some w, record_id := ridElt.text,
                        person_id := pidElt.text, authorized := true }) ∧
    (∀ e s, connect conn w tree = .error (e, s) →
      s.record_id = conn.record_id ∧ s.person_id = conn.person_id) := by
  constructor
  · intro s hs
    unfold connect _get_record_id at hs
    cases h1 : tree.find gpiRecordPath with
    | none => rw [h1] at hs; simp at hs
    | some ridElt =>
      rw [h1] at hs
      cases h2 : tree.find gpiPersonPath with
      | none => rw [h2] at hs; simp at hs
      | some pidElt =>
        rw [h2] at hs
        simp at hs
        exact ⟨ridElt, pidElt, rfl, rfl, hs.symm⟩
  · intro e s hs
    unfold connect _get_record_id at hs
    cases h1 : tree.find gpiRecordPath with
    | none =>
      rw [h1] at hs
      simp at hs
      obtain ⟨-, hs2⟩ := hs
      subst hs2
      exact ⟨rfl, rfl⟩
    | some ridElt =>
      rw [h1] at hs
      cases h2 : tree.find gpiPersonPath with
      | none =>
        rw [h2] at hs
        simp at hs
        obtain ⟨-, hs2⟩ := hs
        subst hs2
        exact ⟨rfl, rfl⟩
      | some pidElt =>
        rw [h2] at hs
        simp at hs

/-- Witness for the amended C3 statement: on a response carrying both
identifiers, the successful `connect` run from `conn0` matches the
success case of the theorem. -/
theorem connect_assigns_pair_witness :
    ∃ ridElt pidElt,
      respFullTree.find gpiRecordPath = some ridElt ∧
      respFullTree.find gpiPersonPath = some pidElt ∧
      ({ wctoken := some "TOKEN", record_id := some "RID", person_id := some "PID",
         auth_token := "AT", sharedsec := "12345", authorized := true } : HVConn) =
        { conn0 with wctoken := some "TOKEN", record_id := ridElt.text,
                     person_id := pidElt.text, authorized := true } :=
  (connect_assigns_pair_atomically conn0 "TOKEN" respFullTree).1 _ (by decide)

/-- C10: when `connect` fails to extract the identifiers, the connection
keeps its previous `record_id`, `person_id` and `authorized` values, but
the stored user token has already been replaced by the new one — the
`self.wctoken = wctoken` assignment happens before the resolution round
trip. -/
theorem connect_failure_keeps_ids_but_replaces_token
    (conn : HVConn) (w : String) (tree : XElt) (e : PyError) (s : HVConn) :
    connect conn w tree = .error (e, s) →
      s.wctoken = some w ∧ s.record_id = conn.record_id ∧
      s.person_id = conn.person_id ∧ s.authorized = conn.authorized := by
  intro hs
  unfold connect _get_record_id at hs
  cases h1 : tree.find gpiRecordPath with
  | none =>
    rw [h1] at hs
    simp at hs
    obtain ⟨-, hs2⟩ := hs
    subst hs2
    exact ⟨rfl, rfl, rfl, rfl⟩
  | some ridElt =>
    rw [h1] at hs
    cases h2 : tree.find gpiPersonPath with
    | none =>
      rw [h2] at hs
      simp at hs
      obtain ⟨-, hs2⟩ := hs
      subst hs2
      exact ⟨rfl, rfl, rfl, rfl⟩
    | some pidElt =>
      rw [h2] at hs
      simp at hs

/-- Witness for C10: the failing `connect` run on an empty response
replaces the token and leaves the identifier fields of `conn0` untouched. -/
theorem connect_failure_witness :
    ({ conn0 with wctoken := some "TOKEN" } : HVConn).wctoken = some "TOKEN" ∧
    ({ conn0 with wctoken := some "TOKEN" } : HVConn).record_id = conn0.record_id ∧
    ({ conn0 with wctoken := some "TOKEN" } : HVConn).person_id = conn0.person_id ∧
    ({ conn0 with wctoken := some "TOKEN" } : HVConn).authorized = conn0.authorized :=
  connect_failure_keeps_ids_but_replaces_token conn0 "TOKEN" respEmptyTree
    (.healthVaultException "selected record ID not found in HV response" none)
    { conn0 with wctoken := some "TOKEN" } (by decide)

/-! ## C8 support: shape of SHA-1 output, base64 injectivity, and the
behaviour of `encodestring(...).strip()` on a 20-byte digest -/

/-- One compression step always yields five state words. -/
theorem sha1Compress_length (h c : List Nat) : (sha1Compress h c).length = 5 := rfl

/-- Folding compression over any chunk list keeps five state words. -/
theorem foldl_sha1Compress_length :
    ∀ (cs : List (List Nat)) (h : List Nat), h.length = 5 →
      (cs.foldl sha1Compress h).length = 5
  | [], _, hh => hh
  | c :: cs, h, _ => foldl_sha1Compress_length cs (sha1Compress h c) (sha1Compress_length h c)

/-- Flattening words to bytes yields four bytes per word. -/
theorem flatMap_word4_length : ∀ (l : List Nat), (l.flatMap word4).length = 4 * l.length
  | [] => rfl
  | x :: xs => by
    simp only [List.flatMap_cons, List.length_append, flatMap_word4_length xs, word4,
      List.length_cons, List.length_nil]
    omega

/-- The SHA-1 digest is always 20 bytes long. -/
theorem sha1_length (msg : List Nat) : (sha1 msg).length = 20 := by
  unfold sha1
  rw [flatMap_word4_length, foldl_sha1Compress_length _ _
    (show ([1732584193, 4023233417, 2562383102, 271733878, 3285377520] : List Nat).length = 5
      from rfl)]

/-- Every byte produced by `word4` is below 256. -/
theorem word4_lt (n : Nat) : ∀ x ∈ word4 n, x < 256 := by
  intro x hx
  simp only [word4, List.mem_cons, List.not_mem_nil, or_false] at hx
  rcases hx with h | h | h | h <;> subst h <;> exact Nat.mod_lt _ (by decide)

/-- Every byte of a SHA-1 digest is below 256. -/
theorem sha1_bytes_lt (msg : List Nat) : ∀ x ∈ sha1 msg, x < 256 := by
  intro x hx
  unfold sha1 at hx
  rw [List.mem_flatMap] at hx
  obtain ⟨w, -, hw⟩ := hx
  exact word4_lt w x hw

/-- Decoding inverts the base64 character table on six-bit values. -/
theorem b64DecChar_b64Char : ∀ v : Nat, v < 64 → b64DecChar (b64Char v) = v := by
  decide

/-- No six-bit value encodes to the padding character. -/
theorem b64Char_ne_pad : ∀ v : Nat, v < 64 → b64Char v ≠ '=' := by
  decide

/-- The base64 character table never yields whitespace (out-of-range
indices give the `getD` default `?`, also not whitespace). -/
theorem b64Char_not_space (v : Nat) : isPySpace (b64Char v) = false := by
  by_cases hv : v < 64
  · exact (by decide : ∀ v : Nat, v < 64 → isPySpace (b64Char v) = false) v hv
  · unfold b64Char
    rw [List.getD_eq_default]
    · decide
    · have : b64Alphabet.length = 64 := rfl
      omega

/-- Base64 decoding is a left inverse of encoding on byte lists, so the
encoder is injective there. -/
theorem b64decode_encode :
    ∀ (l : List Nat), (∀ x ∈ l, x < 256) → b64decode (b64encode l) = l
  | [], _ => rfl
  | [a], h => by
    have ha : a < 256 := h a (by simp)
    rw [show b64encode [a] =
        [b64Char (a * 65536 / 262144), b64Char (a * 65536 / 4096 % 64), '=', '='] from rfl]
    simp only [b64decode, if_true]
    rw [b64DecChar_b64Char _ (by omega), b64DecChar_b64Char _ (Nat.mod_lt _ (by decide))]
    simp only [List.cons.injEq, and_true]
    omega
  | [a, b], h => by
    have ha : a < 256 := h a (by simp)
    have hb : b < 256 := h b (by simp)
    rw [show b64encode [a, b] =
        [b64Char ((a * 65536 + b * 256) / 262144), b64Char ((a * 65536 + b * 256) / 4096 % 64),
         b64Char ((a * 65536 + b * 256) / 64 % 64), '='] from rfl]
    simp only [b64decode, if_true]
    rw [if_neg (b64Char_ne_pad _ (Nat.mod_lt _ (by decide)))]
    rw [b64DecChar_b64Char _ (by omega), b64DecChar_b64Char _ (Nat.mod_lt _ (by decide)),
      b64DecChar_b64Char _ (Nat.mod_lt _ (by decide))]
    simp only [List.cons.injEq, and_true]
    refine ⟨?_, ?_⟩ <;> omega
  | a :: b :: c :: rest, h => by
    have ha : a < 256 := h a (by simp)
    have hb : b < 256 := h b (by simp)
    have hc : c < 256 := h c (by simp)
    have ih := b64decode_encode rest (fun x hx => h x (by simp [hx]))
    rw [show b64encode (a :: b :: c :: rest) =
        b64Char ((a * 65536 + b * 256 + c) / 262144) ::
        b64Char ((a * 65536 + b * 256 + c) / 4096 % 64) ::
        b64Char ((a * 65536 + b * 256 + c) / 64 % 64) ::
        b64Char ((a * 65536 + b * 256 + c) % 64) :: b64encode rest from rfl]
    simp only [b64decode]
    rw [if_neg (b64Char_ne_pad _ (Nat.mod_lt _ (by decide)))]
    rw [b64DecChar_b64Char _ (by omega), b64DecChar_b64Char _ (Nat.mod_lt _ (by decide)),
      b64DecChar_b64Char _ (Nat.mod_lt _ (by decide)),
      b64DecChar_b64Char _ (Nat.mod_lt _ (by decide))]
    rw [ih]
    simp only [List.cons.injEq, and_true]
    refine ⟨?_, ?_, ?_⟩ <;> omega

/-- Every character the base64 encoder emits is a table character or the
padding `=`; none is whitespace. -/
theorem b64encode_not_space :
    ∀ (l : List Nat) (ch : Char), ch ∈ b64encode l → isPySpace ch = false
  | [], _, hm => by simp [b64encode] at hm
  | [a], ch, hm => by
    rw [show b64encode [a] =
        [b64Char (a * 65536 / 262144), b64Char (a * 65536 / 4096 % 64), '=', '='] from rfl] at hm
    simp only [List.mem_cons, List.not_mem_nil, or_false] at hm
    rcases hm with h | h | h | h <;> subst h <;> first
      | exact b64Char_not_space _
      | decide
  | [a, b], ch, hm => by
    rw [show b64encode [a, b] =
        [b64Char ((a * 65536 + b * 256) / 262144), b64Char ((a * 65536 + b * 256) / 4096 % 64),
         b64Char ((a * 65536 + b * 256) / 64 % 64), '='] from rfl] at hm
    simp only [List.mem_cons, List.not_mem_nil, or_false] at hm
    rcases hm with h | h | h | h <;> subst h <;> first
      | exact b64Char_not_space _
      | decide
  | a :: b :: c :: rest, ch, hm => by
    rw [show b64encode (a :: b :: c :: rest) =
        b64Char ((a * 65536 + b * 256 + c) / 262144) ::
        b64Char ((a * 65536 + b * 256 + c) / 4096 % 64) ::
        b64Char ((a * 65536 + b * 256 + c) / 64 % 64) ::
        b64Char ((a * 65536 + b * 256 + c) % 64) :: b64encode rest from rfl] at hm
    simp only [List.mem_cons] at hm
    rcases hm with h | h | h | h | h
    · subst h; exact b64Char_not_space _
    · subst h; exact b64Char_not_space _
    · subst h; exact b64Char_not_space _
    · subst h; exact b64Char_not_space _
    · exact b64encode_not_space rest ch h

/-- The fuelled chunker on an empty byte list produces nothing. -/
theorem encodestringAux_nil (fuel : Nat) : encodestringAux fuel [] = [] := by
  cases fuel <;> rfl

/-- Applying `base64.encodestring` to a nonempty input of at most 57 bytes (one
line) is the plain encoding followed by one newline. -/
theorem encodestring_short (l : List Nat) (h0 : l ≠ []) (h57 : l.length ≤ 57) :
    base64_encodestring l = b64encode l ++ ['\n'] := by
  cases l with
  | nil => exact absurd rfl h0
  | cons x xs =>
    show encodestringAux ((x :: xs).length + 1) (x :: xs) = _
    rw [show encodestringAux ((x :: xs).length + 1) (x :: xs) =
        b64encode ((x :: xs).take 57) ++ '\n' :: encodestringAux ((x :: xs).length) ((x :: xs).drop 57)
      from rfl]
    rw [List.take_of_length_le h57, List.drop_eq_nil_of_le h57, encodestringAux_nil]

/-- The function `dropWhile` is the identity on a list none of whose elements satisfy
the predicate. -/
theorem dropWhile_of_all_false {α : Type} (p : α → Bool) :
    ∀ (l : List α), (∀ c ∈ l, p c = false) → l.dropWhile p = l
  | [], _ => rfl
  | x :: xs, h => by
    rw [List.dropWhile_cons, h x (by simp)]
    simp

/-- Stripping a trailing newline from a whitespace-free line. -/
theorem pyStripList_append_newline (cs : List Char) (h : ∀ c ∈ cs, isPySpace c = false) :
    pyStripList (cs ++ ['\n']) = cs := by
  unfold pyStripList
  cases cs with
  | nil => rfl
  | cons a as =>
    have ha : isPySpace a = false := h a (by simp)
    rw [show (a :: as) ++ ['\n'] = a :: (as ++ ['\n']) from rfl]
    rw [List.dropWhile_cons, ha]
    simp only [Bool.false_eq_true, if_false]
    rw [show (a :: (as ++ ['\n'])).reverse = ((as ++ ['\n']).reverse) ++ [a] from by
      simp [List.reverse_cons]]
    rw [List.reverse_append]
    show (List.dropWhile isPySpace ('\n' :: (as.reverse ++ [a]))).reverse = a :: as
    rw [List.dropWhile_cons]
    rw [show isPySpace '\n' = true from rfl]
    simp only [if_true]
    rw [dropWhile_of_all_false _ (as.reverse ++ [a]) ?mem]
    case mem =>
      intro c hc
      simp only [List.mem_append, List.mem_reverse, List.mem_singleton] at hc
      rcases hc with hc | hc
      · exact h c (by simp [hc])
      · subst hc; exact ha
    simp [List.reverse_append]

/-- On a 20-byte digest, `base64.encodestring(...).strip()` is exactly the
plain single-line base64 encoding. -/
theorem strip_encodestring_digest (d : List Nat) (hlen : d.length = 20) :
    pyStrip (String.mk (base64_encodestring d)) = String.mk (b64encode d) := by
  have hne : d ≠ [] := by
    intro hd
    subst hd
    simp at hlen
  rw [encodestring_short d hne (by omega)]
  unfold pyStrip
  rw [show (String.mk (b64encode d ++ ['\n'])).data = b64encode d ++ ['\n'] from rfl]
  rw [pyStripList_append_newline _ (b64encode_not_space d)]

/-- The base64 encoder is injective on byte lists. -/
theorem b64encode_injective (l1 l2 : List Nat)
    (h1 : ∀ x ∈ l1, x < 256) (h2 : ∀ x ∈ l2, x < 256)
    (he : b64encode l1 = b64encode l2) : l1 = l2 := by
  rw [← b64decode_encode l1 h1, ← b64decode_encode l2 h2, he]

/-- C8: the `<info-hash>` element built by `_build_and_send_request`
carries exactly the base64 encoding of the SHA-1 digest of the `<info>`
fragment (the `encodestring` newline is removed by `.strip()`), and two
fragments whose SHA-1 digests differ always produce different
`<info-hash>` elements. -/
theorem info_hash_is_b64_of_sha1 (i1 i2 : List Nat) :
    headerinfo i1 =
      "<info-hash><hash-data algName=\"SHA1\">" ++ String.mk (b64encode (sha1 i1)) ++
        "</hash-data></info-hash>" ∧
    (sha1 i1 ≠ sha1 i2 → headerinfo i1 ≠ headerinfo i2) := by
  have hpart : ∀ i : List Nat, headerinfo i =
      "<info-hash><hash-data algName=\"SHA1\">" ++ String.mk (b64encode (sha1 i)) ++
        "</hash-data></info-hash>" := by
    intro i
    unfold headerinfo
    rw [strip_encodestring_digest _ (sha1_length i)]
  refine ⟨hpart i1, fun hne heq => hne ?_⟩
  rw [hpart i1, hpart i2] at heq
  have hdata := congrArg String.data heq
  simp only [String.data_append] at hdata
  rw [List.append_assoc, List.append_assoc] at hdata
  have henc := List.append_cancel_right (List.append_cancel_left hdata)
  exact b64encode_injective _ _ (sha1_bytes_lt i1) (sha1_bytes_lt i2) henc

set_option maxRecDepth 100000 in
/-- Witness for C8 at two concrete fragments with different digests. -/
theorem info_hash_differs_witness : headerinfo [0] ≠ headerinfo [1] :=
  (info_hash_is_b64_of_sha1 [0] [1]).2 (by decide)

/-! ## C7.  Identifier checks in the envelope builder -/

